import Mathlib

/-!
Shallow embedding of the SQL-Server dialect client
(`SQLServerClient` in `src/apps/studio/src/store/DataModules.ts`),
together with proofs checking the natural-language specification
against it.

Rows coming back from the driver are modelled as association lists
from column name to a string value; the driver itself, and the
external SQL statement classifier, are modelled as explicit inputs
to the functions that consume their outputs.
-/

namespace SQLServer

/-- A driver row: a JS object, modelled as an ordered association list
from column name to value (the driver returns rows object-keyed). -/
abbrev Row := List (String × String)

/-! ## Identifier escaping (`wrapIdentifier`, source lines 913-917) -/

/-- Embedding of `value.replace(/\[/g, '[')` from `wrapIdentifier`:
a global single-character regex replace is a character map.  Note the
source replaces `[` with `[` itself. -/
def bracketReplace (s : String) : String :=
  String.mk (s.toList.map (fun c => if c = '[' then '[' else c))

/-- `wrapIdentifier(value)` on the string branch (`_.isString(value)`):
`value !== '*' ? ``[${value.replace(/\[/g, '[')}]`` : '*'`.
Non-string values are returned unchanged by the source and are outside
this embedding. -/
def wrapIdentifier (value : String) : String :=
  if value ≠ "*" then "[" ++ bracketReplace value ++ "]" else "*"

/-! ## Server version probe (`getVersion`, source lines 126-137) -/

/-- The version descriptor built by `getVersion`. -/
structure SQLServerVersion where
  supportOffsetFetch : Bool
  releaseYear : Nat
  versionString : String
deriving Repr, DecidableEq

/-- Digits parsed by the regex capture group `(\d+)`:
`_.toNumber` of a nonempty digit string. -/
def digitsToNat (cs : List Char) : Nat :=
  cs.foldl (fun acc c => acc * 10 + (c.toNat - '0'.toNat)) 0

/-- Embedding of `/SQL Server (\d+)/.exec(versionString)`: scan for the
first occurrence of the literal `SQL Server ` followed by at least one
digit; return the maximal digit run (the capture) at that occurrence. -/
def findYearMatch : List Char → Option Nat
  | [] => none
  | c :: rest =>
    if ("SQL Server ".toList).isPrefixOf (c :: rest) then
      let ds := ((c :: rest).drop "SQL Server ".length).takeWhile (·.isDigit)
      if ds.isEmpty then findYearMatch rest else some (digitsToNat ds)
    else findYearMatch rest

/-- `getVersion()` with the driver's reply factored out: `versionString`
is `result[0]?.rows[0]?.version`, an `Option` because the chain may be
`undefined` (JS `RegExp.exec` coerces `undefined` to the string
`"undefined"`, which contains no match).  Then
`releaseYear = (yearResults && _.toNumber(yearResults[1])) || 2017`
(`0` is falsy, hence the extra guard) and
`supportOffsetFetch = releaseYear >= 2012`. -/
def getVersion (versionString : Option String) : SQLServerVersion :=
  let s := versionString.getD "undefined"
  let yearResults := findYearMatch s.toList
  let releaseYear :=
    match yearResults with
    | some n => if n = 0 then 2017 else n
    | none => 2017
  { supportOffsetFetch := decide (releaseYear ≥ 2012)
    releaseYear := releaseYear
    versionString := s }

/-! ## `selectTop` result shaping (source lines 244-255) -/

/-- The value `selectTop` returns once the driver replied:
`{ result: recordset, fields: Object.keys(recordset[0] || {}) }`. -/
def selectTopShape (recordset : List Row) : List Row × List String :=
  (recordset, ((recordset.head?).getD []).map Prod.fst)

/-! ## SQL fragment builders (source lines 1050-1148) -/

/-- Modelled from the spec: `escapeString(value, quoted)` (imported from
`@shared/lib/dialects/sqlserver`, not under `src/`) doubles embedded
quote characters and returns the single-quoted literal when `quoted`. -/
def escapeString (value : String) (quoted : Bool) : String :=
  let escaped := String.mk (value.toList.flatMap (fun c => if c = '\'' then ['\'', '\''] else [c]))
  if quoted then "'" ++ escaped ++ "'" else escaped

/-- A structured filter entry `{field, type, value}`; `value` is a scalar
or an array of scalars, and `op` is the optional boolean joiner used
between this entry and the previous one. -/
structure FilterItem where
  field : String
  ftype : String
  value : Sum String (List String)
  op : Option String := none
deriving Repr, DecidableEq

/-- Modelled from the spec: `joinFilters(allFilters, filters)` (imported
from `@/common/utils`, not under `src/`) joins the rendered fragments
with each entry's joiner, defaulting to `AND` when unspecified. -/
def joinFilters : List String → List FilterItem → String
  | [], _ => ""
  | [frag], _ => frag
  | frag :: frags, items =>
    frag ++ String.join ((frags.zip (items.drop 1)).map
      (fun p => " " ++ (p.2.op.getD "AND") ++ " " ++ p.1))

/-- `buildFilterString(filters)` (source lines 1100-1113): each entry
renders as `<wrapped field> <uppercased type> <escaped value>`, with
array values rendered as a parenthesized comma-joined list. -/
def buildFilterString (filters : List FilterItem) : String :=
  if filters.length > 0 then
    let allFilters := filters.map (fun item =>
      let wrappedValue :=
        match item.value with
        | .inr vs => "(" ++ String.intercalate "," (vs.map (fun v => escapeString v true)) ++ ")"
        | .inl v => escapeString v true
      wrapIdentifier item.field ++ " " ++ item.ftype.toUpper ++ " " ++ wrappedValue)
    "WHERE " ++ joinFilters allFilters filters
  else ""

/-- The `filters` argument of the select builders:
`_.isString(filters)` distinguishes a raw WHERE string from the
structured list. -/
inductive FilterArg where
  | raw (s : String)
  | structured (l : List FilterItem)
deriving Repr, DecidableEq

/-- `_.isString(filters) ? ``WHERE ${filters}`` : this.buildFilterString(filters)`. -/
def filterStringOf : FilterArg → String
  | .raw s => "WHERE " ++ s
  | .structured l => buildFilterString l

/-- An order entry: either a bare field name or an `{field, dir}` object
(`_.isObject(item)` distinguishes the two). -/
inductive OrderEntry where
  | bare (field : String)
  | withDir (field : String) (dir : String)
deriving Repr, DecidableEq

/-- `genOrderByString(orderBy)` (source lines 1115-1129).  A `null` /
`undefined` argument (modelled `none`) returns `""`; an empty list is
truthy in JS, so it falls through to `"ORDER BY (SELECT NULL)"`; a
nonempty list renders each entry, bare entries as the wrapped field
alone and object entries as `<wrapped field> <uppercased dir>`. -/
def genOrderByString : Option (List OrderEntry) → String
  | none => ""
  | some orderBy =>
    if orderBy.length > 0 then
      "ORDER BY " ++ String.intercalate ","
        (orderBy.map (fun item =>
          match item with
          | .withDir f d => wrapIdentifier f ++ " " ++ d.toUpper
          | .bare f => wrapIdentifier f))
    else "ORDER BY (SELECT NULL)"

/-- `schema ? ``${this.wrapIdentifier(schema)}.`` : ''`. -/
def schemaStringOf : Option String → String
  | some s => wrapIdentifier s ++ "."
  | none => ""

/-- `genSelectOld` (source lines 1050-1074): the legacy ranked-subquery
pagination, a CTE projecting `ROW_NUMBER() OVER (<order>)` filtered to
`BETWEEN offset AND offset + limit`, plus a `TotalRecords` count. -/
def genSelectOld (table : String) (offset limit : Nat)
    (orderBy : Option (List OrderEntry)) (filters : FilterArg)
    (schema : Option String) (selects : List String) : String :=
  let selectString := String.intercalate ", " (selects.map wrapIdentifier)
  let orderByString := genOrderByString orderBy
  let filterString := filterStringOf filters
  let lastRow := offset + limit
  let schemaString := schemaStringOf schema
  "\n      WITH CTE AS\n      (\n          SELECT " ++ selectString ++
  "\n                , " ++ ("ROW_NUMBER() OVER (" ++ orderByString ++ ")") ++
  " as RowNumber\n          FROM " ++
  schemaString ++ wrapIdentifier table ++ "\n          " ++ filterString ++
  "\n      )\n      SELECT *\n            -- get the total records so the web layer can work out\n            -- how many pages there are\n            , (SELECT COUNT(*) FROM CTE) AS TotalRecords\n      FROM CTE\n      WHERE RowNumber BETWEEN " ++
  toString offset ++ " AND " ++ toString lastRow ++ "\n      ORDER BY RowNumber ASC\n    "

/-- `genSelectNew` (source lines 1076-1098): modern pagination with
`OFFSET … ROWS FETCH NEXT … ROWS ONLY`, emitted only when both offset
and limit are numbers (`_.isNumber`). -/
def genSelectNew (table : String) (offset limit : Option Nat)
    (orderBy : Option (List OrderEntry)) (filters : FilterArg)
    (schema : Option String) (selects : List String) : String :=
  let filterString := filterStringOf filters
  let orderByString := genOrderByString orderBy
  let schemaString := schemaStringOf schema
  let selectSQL := "SELECT " ++ String.intercalate ", " (selects.map wrapIdentifier)
  let baseSQL := "\n      FROM " ++ schemaString ++ wrapIdentifier table ++
    "\n      " ++ filterString ++ "\n    "
  let offsetString :=
    match offset, limit with
    | some o, some l => "OFFSET " ++ toString o ++ " ROWS FETCH NEXT " ++ toString l ++ " ROWS ONLY"
    | _, _ => ""
  "\n      " ++ selectSQL ++ " " ++ baseSQL ++ "\n      " ++ orderByString ++
  "\n      " ++ offsetString ++ "\n      "

/-! ## Client lifecycle trace (`connect`, `selectTopSql`,
source lines 257-270 and 872-877)

The observable the spec talks about is which queries a client sends to
the database, so the client is embedded as explicit state carrying the
log of issued query texts together with the memoized `this.version`.
The server's reply to the version probe (`result[0]?.rows[0]?.version`)
is a parameter `dbVersion`. -/

/-- The fixed probe text sent by `getVersion()`. -/
def versionQueryText : String := "SELECT @@VERSION as version"

/-- Mutable client state: the queries issued so far and `this.version`. -/
structure ClientState where
  log : List String
  version : Option SQLServerVersion
deriving Repr, DecidableEq

/-- `getVersion()` as an effectful operation: it runs
`executeQuery("SELECT @@VERSION as version")` (appending the probe to
the issued-query log) and parses the reply. -/
def getVersionOp (dbVersion : Option String) (st : ClientState) :
    SQLServerVersion × ClientState :=
  (getVersion dbVersion, { st with log := st.log ++ [versionQueryText] })

/-- `connect()` (source lines 872-877): probes the version once and
memoizes it in `this.version`. -/
def connectOp (dbVersion : Option String) (st : ClientState) : ClientState :=
  let (v, st') := getVersionOp dbVersion st
  { st' with version := some v }

/-- `selectTopSql` (source lines 257-270):
`const version = await this.getVersion()` — a fresh probe, not the
memoized `this.version` — then the strategy choice. -/
def selectTopSqlOp (dbVersion : Option String) (table : String)
    (offset limit : Nat) (orderBy : Option (List OrderEntry))
    (filters : FilterArg) (schema : Option String) (selects : List String)
    (st : ClientState) : String × ClientState :=
  let (version, st') := getVersionOp dbVersion st
  (if version.supportOffsetFetch then
      genSelectNew table (some offset) (some limit) orderBy filters schema selects
    else
      genSelectOld table offset limit orderBy filters schema selects,
   st')

/-! ## Query execution and result shaping
(`executeQuery` lines 203-213, `parseFields` lines 958-969,
`parseRowQueryResult` lines 971-984) -/

/-- A field descriptor `{id, name}`. -/
structure FieldInfo where
  id : String
  name : String
deriving Repr, DecidableEq

/-- The shaped result of one statement. `command` is `none` where the
source yields JS `false`/`undefined` (no label). -/
structure QueryResult where
  command : Option String
  rows : List Row
  fields : List FieldInfo
  rowCount : Nat
  affectedRows : Nat
deriving Repr, DecidableEq

/-- One driver result set: its rows plus the driver's `columns`
metadata property (absent on the synthesized placeholder). Each
metadata entry is the column's `name`. -/
structure Recordset where
  rows : List Row
  columns : Option (List String)
deriving Repr, DecidableEq

/-- `parseFields(data, columns)`: with driver column metadata, ids are
positional (`c0`, `c1`, …); otherwise fields come from
`Object.keys(data[0] || {})`. -/
def parseFields (data : List Row) (columns : Option (List String)) : List FieldInfo :=
  match columns with
  | some cols => cols.mapIdx (fun idx c => { id := "c" ++ toString idx, name := c })
  | none => ((data.head?).getD []).map (fun kv => { name := kv.1, id := kv.1 })

/-- `parseRowQueryResult(data, rowsAffected, command, columns)` in the
object-row mode (`arrayRowMode = false`; the array-row remapping via
`_.zipObject` only re-keys rows and is not modelled).
`isSelect = !!(data.length || rowsAffected === 0)` and
`command: command || (isSelect && 'SELECT')` — the classifier's label,
when present (classifier types are nonempty strings, hence truthy),
wins; `SELECT` is only the fallback. -/
def parseRowQueryResult (data : List Row) (rowsAffected : Nat)
    (command : Option String) (columns : Option (List String)) : QueryResult :=
  let isSelect : Bool := data.length != 0 || rowsAffected == 0
  { command :=
      match command with
      | some c => some c
      | none => if isSelect then some "SELECT" else none
    rows := data
    fields := parseFields data columns
    rowCount := data.length
    affectedRows := rowsAffected }

/-- `_.sum(data.rowsAffected)` computed inside `driverExecuteQuery`:
the per-statement affected-row counts summed into one total. -/
def sumRowsAffected (counts : List Nat) : Nat := counts.sum

/-- `executeQuery(queryText)` with the driver reply and the external
classifier's statement types (`identifyCommands(queryText).map(i => i.type)`)
factored out as inputs:
`results = !data.recordsets.length && rowsAffected > 0 ? [[]] : data.recordsets`,
then each result is parsed positionally against `commands[idx]`. -/
def executeQuery (recordsets : List Recordset) (rowsAffected : Nat)
    (commands : List String) : List QueryResult :=
  let results :=
    if recordsets.length = 0 ∧ rowsAffected > 0 then
      [{ rows := [], columns := none }]
    else recordsets
  results.mapIdx (fun idx r => parseRowQueryResult r.rows rowsAffected commands[idx]? r.columns)

/-! ## Change sets and `applyChanges` (source lines 567-602)

The statement builders (`buildInsertQueries`, `buildUpdateQueries`,
`buildDeleteQueries`, `buildSelectQueriesFromUpdates`) are imported
from `./utils`, which is not under `src/`; they are modelled from the
spec (§4.3): one rendered SQL statement per change descriptor, plus one
re-selection query per update. The driver is an explicit parameter: a
function from query text and database state to the next state and
either a row list or an error. -/

/-- An insert descriptor: table, schema, column/value pairs. -/
structure InsertChange where
  table : String
  schema : Option String := none
  data : List (String × String)
deriving Repr, DecidableEq

/-- An update descriptor: table, schema, a primary-key predicate and
the column/value to set. -/
structure UpdateChange where
  table : String
  schema : Option String := none
  pkColumn : String
  pkValue : String
  column : String
  value : String
deriving Repr, DecidableEq

/-- A delete descriptor: table, schema and a primary-key predicate. -/
structure DeleteChange where
  table : String
  schema : Option String := none
  pkColumn : String
  pkValue : String
deriving Repr, DecidableEq

/-- The change set passed to `applyChanges`: three independent optional
lists (`none` models an absent JS property). -/
structure ChangeSet where
  inserts : Option (List InsertChange) := none
  updates : Option (List UpdateChange) := none
  deletes : Option (List DeleteChange) := none
deriving Repr, DecidableEq

/-- Schema-qualified wrapped table name used by the rendered statements. -/
def qualifiedTable (table : String) (schema : Option String) : String :=
  schemaStringOf schema ++ wrapIdentifier table

/-- Modelled from the spec: `buildInsertQueries` (from `./utils`, not
under `src/`) renders one INSERT statement per insert descriptor. -/
def buildInsertQueries (inserts : List InsertChange) : List String :=
  inserts.map (fun c =>
    "INSERT INTO " ++ qualifiedTable c.table c.schema ++
    " (" ++ String.intercalate ", " (c.data.map (fun kv => wrapIdentifier kv.1)) ++
    ") VALUES (" ++ String.intercalate ", " (c.data.map (fun kv => escapeString kv.2 true)) ++ ")")

/-- Modelled from the spec: `buildUpdateQueries` (from `./utils`, not
under `src/`) renders one UPDATE statement per update descriptor,
keyed by its primary-key predicate. -/
def buildUpdateQueries (updates : List UpdateChange) : List String :=
  updates.map (fun c =>
    "UPDATE " ++ qualifiedTable c.table c.schema ++
    " SET " ++ wrapIdentifier c.column ++ " = " ++ escapeString c.value true ++
    " WHERE " ++ wrapIdentifier c.pkColumn ++ " = " ++ escapeString c.pkValue true)

/-- Modelled from the spec: `buildDeleteQueries` (from `./utils`, not
under `src/`) renders one DELETE statement per delete descriptor,
keyed by its primary-key predicate. -/
def buildDeleteQueries (deletes : List DeleteChange) : List String :=
  deletes.map (fun c =>
    "DELETE FROM " ++ qualifiedTable c.table c.schema ++
    " WHERE " ++ wrapIdentifier c.pkColumn ++ " = " ++ escapeString c.pkValue true)

/-- Modelled from the spec: `buildSelectQueriesFromUpdates` (from
`./utils`, not under `src/`) renders one post-update re-selection
query per update descriptor, keyed by its primary-key predicate. -/
def buildSelectQueriesFromUpdates (updates : List UpdateChange) : List String :=
  updates.map (fun c =>
    "SELECT * FROM " ++ qualifiedTable c.table c.schema ++
    " WHERE " ++ wrapIdentifier c.pkColumn ++ " = " ++ escapeString c.pkValue true)

/-- The statement list `applyChanges` assembles before joining
(source lines 569-584): the atomicity flag, `BEGIN TRANSACTION`, then
the insert, update and delete blocks (a block contributes nothing when
its list is absent — falsy — or empty), then `COMMIT`. -/
def applyChangesStatements (changes : ChangeSet) : List String :=
  let sql := ["SET XACT_ABORT ON", "BEGIN TRANSACTION"]
  let sql := sql ++ (match changes.inserts with | some i => buildInsertQueries i | none => [])
  let sql := sql ++ (match changes.updates with | some u => buildUpdateQueries u | none => [])
  let sql := sql ++ (match changes.deletes with | some d => buildDeleteQueries d | none => [])
  sql ++ ["COMMIT"]

/-- `sql.join(';')`. -/
def joinStmts : List String → String
  | [] => ""
  | [s] => s
  | s :: rest => s ++ ";" ++ joinStmts rest

/-- The driver seen through `driverExecuteQuery`: one execution takes
the query text and the database state and returns the next state and
either the resulting rows or a raised error. -/
abbrev Driver (σ : Type) := String → σ → σ × Except String (List Row)

/-- The post-commit re-selection loop (source lines 588-595): each
select is executed in turn and its first row (`r.data[0]`, when
truthy) is pushed onto `results`; an execution error propagates.
Also returns the list of issued query texts. -/
def runSelects {σ : Type} (exec : Driver σ) :
    List String → σ → σ × List String × Except String (List Row)
  | [], st => (st, [], .ok [])
  | q :: rest, st =>
    match exec q st with
    | (st', .error e) => (st', [q], .error e)
    | (st', .ok rows) =>
      match runSelects exec rest st' with
      | (st'', issued, .error e) => (st'', q :: issued, .error e)
      | (st'', issued, .ok acc) =>
        (st'', q :: issued,
         .ok ((match rows.head? with | some r => [r] | none => []) ++ acc))

/-- `applyChanges(changes)` (source lines 567-602): the whole statement
list is joined and submitted as one `driverExecuteQuery` call; on
success the post-update selects are issued; any raised error is logged
and rethrown (the `results` accumulated so far are discarded).  Also
returns the list of issued query texts. -/
def applyChanges {σ : Type} (exec : Driver σ) (changes : ChangeSet) (st : σ) :
    σ × List String × Except String (List Row) :=
  let batch := joinStmts (applyChangesStatements changes)
  match exec batch st with
  | (st', .error e) => (st', [batch], .error e)
  | (st', .ok _) =>
    match changes.updates with
    | none => (st', [batch], .ok [])
    | some updates =>
      match runSelects exec (buildSelectQueriesFromUpdates updates) st' with
      | (st'', issued, res) => (st'', batch :: issued, res)

/-! ## Index introspection (`listTableIndexes`, source lines 320-374) -/

/-- One row of the flat catalog join over `sys.indexes`,
`sys.index_columns`, `sys.columns`, `sys.tables`, `sys.schemas`. -/
structure IndexRow where
  table_name : String
  schema_name : String
  index_name : String
  index_id : Nat
  column_id : Nat
  column_name : String
  is_descending : Bool
  is_unique : Bool
  is_primary : Bool
deriving Repr, DecidableEq, Inhabited

/-- One column of a grouped index record. -/
structure IndexColumn where
  name : String
  order : String
deriving Repr, DecidableEq

/-- A grouped index record. -/
structure TableIndex where
  table : String
  schema : String
  id : Nat
  name : String
  unique : Bool
  primary : Bool
  columns : List IndexColumn
deriving Repr, DecidableEq

/-- `_.sortBy(list, key)`: a stable sort by a numeric key (lodash
`sortBy` is stable; insertion sort with `≤` on keys is stable). -/
def sortByKey {α : Type} (key : α → Nat) (l : List α) : List α :=
  List.insertionSort (fun a b => key a ≤ key b) l

/-- Distinct keys in first-occurrence order. -/
def firstOccurrenceKeys : List String → List String
  | [] => []
  | k :: rest => k :: (firstOccurrenceKeys rest).filter (fun k2 => k2 ≠ k)

/-- The keys of `_.groupBy(recordset, 'index_name')` in `Object.keys`
order: first occurrence order (index names are SQL identifiers, not
array-index-like keys, so JS preserves insertion order). -/
def groupKeys (rows : List IndexRow) : List String :=
  firstOccurrenceKeys (rows.map (·.index_name))

/-- The group of rows sharing one index name, in recordset order. -/
def groupRows (rows : List IndexRow) (k : String) : List IndexRow :=
  rows.filter (fun r => r.index_name = k)

/-- The body of the `Object.keys(grouped).map((indexName) => …)` callback
in `listTableIndexes` (source lines 357-371): take `is_unique`,
`index_id`, `is_primary` from the first row of the group (`blob[0]`)
and render the columns sorted by `column_id` (`_.sortBy(blob, 'column_id')`)
with `DESC`/`ASC` from `is_descending`. -/
def indexRecordOf (table schema : String) (rows : List IndexRow)
    (indexName : String) : TableIndex :=
  let blob := groupRows rows indexName
  let unique := blob.headI.is_unique
  let id := blob.headI.index_id
  let primary := blob.headI.is_primary
  let columns := (sortByKey (·.column_id) blob).map (fun column =>
    { name := column.column_name
      order := if column.is_descending then "DESC" else "ASC" : IndexColumn })
  { table := table, schema := schema, id := id, name := indexName,
    unique := unique, primary := primary, columns := columns }

/-- `listTableIndexes` (source lines 355-373) after the driver reply:
group by index name, reduce each group to one record, and sort the
records by `id` (`_.sortBy(result, 'id')`). -/
def listTableIndexes (table schema : String) (rows : List IndexRow) : List TableIndex :=
  sortByKey (·.id) ((groupKeys rows).map (indexRecordOf table schema rows))

/-! ## Auxiliary instances and concrete examples used by the proofs -/

instance {α : Type} (key : α → Nat) : IsTotal α (fun a b => key a ≤ key b) :=
  ⟨fun a b => Nat.le_total (key a) (key b)⟩

instance {α : Type} (key : α → Nat) : IsTrans α (fun a b => key a ≤ key b) :=
  ⟨fun _ _ _ h h2 => Nat.le_trans h h2⟩

/-- The pattern `pat` occurs verbatim inside `s`. -/
def containsSubstr (s pat : String) : Prop := ∃ a b, s = a ++ pat ++ b

/-- A driver that accepts every query without touching the state,
used to instantiate the C3 theorem. -/
def acceptAllDriver : Driver Nat := fun _ s => (s, Except.ok [])

/-- A change set with one insert and one delete and no updates. -/
def c3ExampleChanges : ChangeSet :=
  { inserts := some [{ table := "t", data := [("name", "x")] }]
    deletes := some [{ table := "t", pkColumn := "id", pkValue := "1" }] }

/-- A driver whose every execution fails with a constraint violation
and leaves the state untouched. -/
def alwaysFailDriver : Driver Nat := fun _ s => (s, Except.error "constraint violation")

/-- The single-update change set from the spec's example. -/
def c4ExampleChanges : ChangeSet :=
  { updates := some [{ table := "t", pkColumn := "id", pkValue := "1",
                       column := "name", value := "x" }] }

/-- The catalog rows of a two-column composite unique index, delivered
in scrambled column order. -/
def c8ExampleRows : List IndexRow :=
  [ { table_name := "t", schema_name := "dbo", index_name := "ix", index_id := 5,
      column_id := 2, column_name := "b", is_descending := true,
      is_unique := true, is_primary := false },
    { table_name := "t", schema_name := "dbo", index_name := "ix", index_id := 5,
      column_id := 1, column_name := "a", is_descending := false,
      is_unique := true, is_primary := false } ]

/-- The grouped record `listTableIndexes` produces for `c8ExampleRows`. -/
def c8ExampleRecord : TableIndex :=
  { table := "t", schema := "dbo", id := 5, name := "ix", unique := true,
    primary := false,
    columns := [{ name := "a", order := "ASC" }, { name := "b", order := "DESC" }] }

end SQLServer

namespace SQLServer

/-! ## Theorems -/

/-- C1: the claim requires any embedded closing bracket to be rendered
safely (escaped or rejected) so the bracketed form cannot be broken out
of.  The code's only escape step, `value.replace(/\[/g, '[')`, replaces
`[` with itself and so changes nothing on any input; an identifier with
an embedded `]` is wrapped verbatim, and `wrapIdentifier "a]b"` yields
`[a]b]`, whose first closing bracket terminates the bracketed form early
— the injection surface is open.  The unproblematic parts of the claim
do hold: `*` passes through and a name without special characters is
returned unchanged plus bracketing. -/
theorem c1_wrapIdentifier_leaves_closing_bracket_unescaped :
    (∀ s : String, bracketReplace s = s) ∧
    wrapIdentifier "a]b" = "[a]b]" ∧
    wrapIdentifier "name" = "[name]" ∧
    wrapIdentifier "*" = "*" := by
  refine ⟨?_, by decide, by decide, by decide⟩
  intro s
  have h : ∀ l : List Char, l.map (fun c => if c = '[' then '[' else c) = l := by
    intro l
    induction l with
    | nil => rfl
    | cons c cs ih =>
      by_cases hc : c = '[' <;> simp [List.map, ih, hc]
  cases s with
  | mk data => simp only [bracketReplace, String.toList, h]

/-- C9: when the pattern `SQL Server <digits>` does not occur in the
(possibly missing, hence `"undefined"`-coerced) version string,
`getVersion` falls back to release year 2017 with `supportOffsetFetch`
true; and on every input `supportOffsetFetch` holds exactly when the
returned release year is at least 2012. -/
theorem c9_getVersion_default_year_and_offset_fetch :
    ∀ vs : Option String,
      (findYearMatch ((vs.getD "undefined").toList) = none →
        getVersion vs = { supportOffsetFetch := true, releaseYear := 2017,
                          versionString := vs.getD "undefined" }) ∧
      ((getVersion vs).supportOffsetFetch = true ↔ 2012 ≤ (getVersion vs).releaseYear) := by
  intro vs
  constructor
  · intro h
    have h' : findYearMatch (vs.getD "undefined").data = none := h
    simp [getVersion, h']
  · simp only [getVersion]
    exact decide_eq_true_iff

/-- C9 witness: the empty version string contains no match and yields
the 2017 / offset-fetch default. -/
theorem c9_witness :
    findYearMatch (((some "").getD "undefined").toList) = none ∧
    getVersion (some "") = { supportOffsetFetch := true, releaseYear := 2017,
                             versionString := "" } :=
  ⟨rfl, (c9_getVersion_default_year_and_offset_fetch (some "")).1 rfl⟩

/-- C10: `selectTop` derives its fields from the keys of the first row
(`Object.keys(recordset[0] || {})`); on an empty result set it returns
the empty row list together with an empty fields list instead of
failing on the missing first row. -/
theorem c10_selectTop_fields_from_first_row :
    ∀ recordset : List Row,
      (recordset = [] → selectTopShape recordset = ([], [])) ∧
      (∀ r rest, recordset = r :: rest →
        selectTopShape recordset = (recordset, r.map Prod.fst)) := by
  intro recordset
  constructor
  · intro h; subst h; rfl
  · intro r rest h; subst h; rfl

/-- C10 witness: the empty result set maps to empty rows and fields. -/
theorem c10_witness :
    ([] : List Row) = [] ∧ selectTopShape [] = ([], []) :=
  ⟨rfl, (c10_selectTop_fields_from_first_row []).1 rfl⟩

/-- C2 counterexample: the claim says no `selectTopSql` call after
`connect()` issues a new version query.  On a concrete client,
`connect()` leaves one version probe in the issued-query log, and a
single subsequent `selectTopSql` call raises the count to two: the
strategy is re-probed per query. -/
theorem c2_counterexample_selectTopSql_reprobes :
    ((connectOp (some "Microsoft SQL Server 2019") ⟨[], none⟩).log.count versionQueryText = 1) ∧
    ((selectTopSqlOp (some "Microsoft SQL Server 2019") "t" 0 10 (some []) (.structured [])
        none ["*"] (connectOp (some "Microsoft SQL Server 2019") ⟨[], none⟩)).2.log.count
        versionQueryText = 2) := by
  constructor <;> decide

/-- C2 amended: `connect()` performs the version probe exactly once and
memoizes it in `this.version`, and the probe determines the strategy
(`genSelectNew` when offset/fetch is supported, `genSelectOld`
otherwise) — but the memo is not consulted: every `selectTopSql` call
runs `getVersion()` afresh, appending exactly one new version query to
the issued-query log per call and leaving the memo untouched. -/
theorem c2_amended_one_version_probe_per_selectTopSql :
    ∀ (dbVersion : Option String) (table : String) (offset limit : Nat)
      (orderBy : Option (List OrderEntry)) (filters : FilterArg)
      (schema : Option String) (selects : List String) (st : ClientState),
      (connectOp dbVersion st).log = st.log ++ [versionQueryText] ∧
      (connectOp dbVersion st).version = some (getVersion dbVersion) ∧
      (selectTopSqlOp dbVersion table offset limit orderBy filters schema selects st).2.log =
        st.log ++ [versionQueryText] ∧
      (selectTopSqlOp dbVersion table offset limit orderBy filters schema selects st).2.version =
        st.version ∧
      (selectTopSqlOp dbVersion table offset limit orderBy filters schema selects st).1 =
        (if (getVersion dbVersion).supportOffsetFetch then
          genSelectNew table (some offset) (some limit) orderBy filters schema selects
        else
          genSelectOld table offset limit orderBy filters schema selects) := by
  intro dbVersion table offset limit orderBy filters schema selects st
  refine ⟨rfl, rfl, rfl, rfl, rfl⟩

/-- C5: when the driver reports zero result sets but a positive summed
affected-row count, `executeQuery` synthesizes exactly one empty
placeholder result — empty row list, `rowCount` 0, `affectedRows` equal
to the sum, empty fields — so `result[0]` is safe; otherwise it returns
one result per driver result set, parsed positionally against the
classifier's statement list. -/
theorem c5_executeQuery_placeholder_result :
    ∀ (recordsets : List Recordset) (counts : List Nat) (commands : List String),
      (recordsets = [] → 0 < sumRowsAffected counts →
        (executeQuery recordsets (sumRowsAffected counts) commands).length = 1 ∧
        ∀ r ∈ executeQuery recordsets (sumRowsAffected counts) commands,
          r.rows = [] ∧ r.rowCount = 0 ∧ r.affectedRows = sumRowsAffected counts ∧
          r.fields = []) ∧
      (recordsets ≠ [] ∨ sumRowsAffected counts = 0 →
        executeQuery recordsets (sumRowsAffected counts) commands =
          recordsets.mapIdx (fun idx r =>
            parseRowQueryResult r.rows (sumRowsAffected counts) commands[idx]? r.columns)) := by
  intro recordsets counts commands
  constructor
  · intro h hpos
    subst h
    constructor
    · simp [executeQuery, hpos]
    · intro r hr
      simp [executeQuery, hpos] at hr
      subst hr
      simp [parseRowQueryResult, parseFields]
  · intro h
    have hcond : ¬(recordsets.length = 0 ∧ sumRowsAffected counts > 0) := by
      rcases h with h | h
      · rintro ⟨h0, -⟩
        exact h (List.length_eq_zero.mp h0)
      · rintro ⟨-, hpos⟩
        omega
    simp only [executeQuery]
    rw [if_neg hcond]

/-- C5 witness: two statements affecting 2 and 3 rows with no result
set yield the single placeholder. -/
theorem c5_witness :
    ([] : List Recordset) = [] ∧ 0 < sumRowsAffected [2, 3] ∧
    ((executeQuery [] (sumRowsAffected [2, 3]) ["UPDATE"]).length = 1 ∧
      ∀ r ∈ executeQuery [] (sumRowsAffected [2, 3]) ["UPDATE"],
        r.rows = [] ∧ r.rowCount = 0 ∧ r.affectedRows = sumRowsAffected [2, 3] ∧
        r.fields = []) :=
  ⟨rfl, by decide,
    (c5_executeQuery_placeholder_result [] [2, 3] ["UPDATE"]).1 rfl (by decide)⟩

/-- C6 counterexample: the claim says a result set with at least one
row is labeled `SELECT`.  In the code the classifier's label takes
precedence (`command || (isSelect && 'SELECT')`): a one-row result whose
statement the classifier typed `UPDATE` keeps the label `UPDATE`. -/
theorem c6_counterexample_classifier_label_wins :
    (parseRowQueryResult [[("a", "1")]] 5 (some "UPDATE") none).rowCount = 1 ∧
    (parseRowQueryResult [[("a", "1")]] 5 (some "UPDATE") none).command = some "UPDATE" ∧
    (parseRowQueryResult [[("a", "1")]] 5 (some "UPDATE") none).command ≠ some "SELECT" := by
  refine ⟨rfl, rfl, by decide⟩

/-- C6 amended: the classifier's statement type, when assigned, is
always the result's label; only when the classifier assigned none is a
result with at least one row — or with zero rows and affected-row count
exactly zero — labeled `SELECT`, and otherwise it gets no label. -/
theorem c6_amended_classifier_precedence :
    ∀ (data : List Row) (rowsAffected : Nat) (cols : Option (List String)) (c : String),
      (parseRowQueryResult data rowsAffected (some c) cols).command = some c ∧
      ((parseRowQueryResult data rowsAffected none cols).command =
        if data.length ≠ 0 ∨ rowsAffected = 0 then some "SELECT" else none) := by
  intro data rowsAffected cols c
  refine ⟨rfl, ?_⟩
  simp only [parseRowQueryResult]
  by_cases h : data.length ≠ 0 ∨ rowsAffected = 0
  · rw [if_pos h]
    have hb : (data.length != 0 || rowsAffected == 0) = true := by
      rcases h with h | h <;> simp [h]
    simp [hb]
  · rw [if_neg h]
    push_neg at h
    have hb : (data.length != 0 || rowsAffected == 0) = false := by
      simp [h.1, h.2]
    simp [hb]

set_option maxRecDepth 8192 in
/-- C7 counterexample: the claim says the ranking function is never
emitted without an ORDER BY.  When the caller passes no order argument
at all (`null`/`undefined`, modelled `none`), `genOrderByString`
returns `""` and the legacy query contains `ROW_NUMBER() OVER ()` —
the window function with an empty, syntactically invalid OVER clause. -/
theorem c7_counterexample_over_clause_empty :
    genOrderByString none = "" ∧
    containsSubstr (genSelectOld "t" 0 10 none (.structured []) none ["*"])
      "ROW_NUMBER() OVER ()" := by
  refine ⟨rfl,
    ⟨"\n      WITH CTE AS\n      (\n          SELECT *\n                , ",
     " as RowNumber\n          FROM [t]\n          \n      )\n      SELECT *\n            -- get the total records so the web layer can work out\n            -- how many pages there are\n            , (SELECT COUNT(*) FROM CTE) AS TotalRecords\n      FROM CTE\n      WHERE RowNumber BETWEEN 0 AND 10\n      ORDER BY RowNumber ASC\n    ",
     ?_⟩⟩
  rfl

/-- C7 amended: whenever the caller supplies an order list (possibly
empty), the generated legacy query contains the ranking function with
the rendered ORDER BY inside its OVER clause; the rendered clause
always starts with `ORDER BY`, the empty list renders the explicitly
arbitrary `ORDER BY (SELECT NULL)`, and a bare (non-object) entry
renders as the wrapped field alone, i.e. SQL-default ascending.  Only
a missing (`null`) order argument produces `OVER ()` (see the
counterexample). -/
theorem c7_amended_order_by_inside_over :
    ∀ (table : String) (offset limit : Nat) (l : List OrderEntry)
      (filters : FilterArg) (schema : Option String) (selects : List String),
      containsSubstr (genSelectOld table offset limit (some l) filters schema selects)
        ("ROW_NUMBER() OVER (" ++ genOrderByString (some l) ++ ")") ∧
      (∃ t, genOrderByString (some l) = "ORDER BY " ++ t) ∧
      (l = [] → genOrderByString (some l) = "ORDER BY (SELECT NULL)") ∧
      (∀ f, genOrderByString (some [OrderEntry.bare f]) = "ORDER BY " ++ wrapIdentifier f) := by
  intro table offset limit l filters schema selects
  refine ⟨?_, ?_, ?_, ?_⟩
  · refine ⟨"\n      WITH CTE AS\n      (\n          SELECT " ++
        String.intercalate ", " (selects.map wrapIdentifier) ++ "\n                , ",
      " as RowNumber\n          FROM " ++ schemaStringOf schema ++ wrapIdentifier table ++
        "\n          " ++ filterStringOf filters ++
        "\n      )\n      SELECT *\n            -- get the total records so the web layer can work out\n            -- how many pages there are\n            , (SELECT COUNT(*) FROM CTE) AS TotalRecords\n      FROM CTE\n      WHERE RowNumber BETWEEN " ++
        toString offset ++ " AND " ++ toString (offset + limit) ++
        "\n      ORDER BY RowNumber ASC\n    ", ?_⟩
    simp only [genSelectOld, String.append_assoc]
  · cases l with
    | nil => exact ⟨"(SELECT NULL)", rfl⟩
    | cons e es =>
      refine ⟨String.intercalate ","
        ((e :: es).map (fun item =>
          match item with
          | .withDir f d => wrapIdentifier f ++ " " ++ d.toUpper
          | .bare f => wrapIdentifier f)), ?_⟩
      simp [genOrderByString]
  · intro h
    subst h
    rfl
  · intro f
    rfl

/-- C7 witness: the empty order list yields the arbitrary-order clause
inside the OVER window. -/
theorem c7_witness :
    ([] : List OrderEntry) = [] ∧
    genOrderByString (some ([] : List OrderEntry)) = "ORDER BY (SELECT NULL)" :=
  ⟨rfl, (c7_amended_order_by_inside_over "t" 0 10 [] (.structured []) none ["*"]).2.2.1 rfl⟩

/-- C3: `applyChanges` assembles exactly the sequence
`SET XACT_ABORT ON; BEGIN TRANSACTION; <inserts>; <updates>; <deletes>;
COMMIT` — inserts, then updates, then deletes, the order being fixed by
the code rather than by the caller, each block contributing one
statement per descriptor (hence empty or absent lists contribute
nothing) — and submits the semicolon-joined whole as the first and
(when there are no post-update re-selections) only driver execution. -/
theorem c3_applyChanges_statement_sequence :
    ∀ (σ : Type) (exec : Driver σ) (st : σ) (changes : ChangeSet),
      applyChangesStatements changes =
        ["SET XACT_ABORT ON", "BEGIN TRANSACTION"] ++
          buildInsertQueries ((changes.inserts).getD []) ++
          buildUpdateQueries ((changes.updates).getD []) ++
          buildDeleteQueries ((changes.deletes).getD []) ++ ["COMMIT"] ∧
      (buildInsertQueries ((changes.inserts).getD [])).length =
        ((changes.inserts).getD []).length ∧
      (buildUpdateQueries ((changes.updates).getD [])).length =
        ((changes.updates).getD []).length ∧
      (buildDeleteQueries ((changes.deletes).getD [])).length =
        ((changes.deletes).getD []).length ∧
      (applyChanges exec changes st).2.1.head? =
        some (joinStmts (applyChangesStatements changes)) ∧
      (changes.updates = none →
        (applyChanges exec changes st).2.1 =
          [joinStmts (applyChangesStatements changes)]) := by
  intro σ exec st changes
  obtain ⟨i, u, d⟩ := changes
  refine ⟨?_, ?_, ?_, ?_, ?_, ?_⟩
  · cases i <;> cases u <;> cases d <;>
      simp [applyChangesStatements, buildInsertQueries, buildUpdateQueries,
        buildDeleteQueries]
  · simp [buildInsertQueries]
  · simp [buildUpdateQueries]
  · simp [buildDeleteQueries]
  · rcases hx : exec (joinStmts (applyChangesStatements ⟨i, u, d⟩)) st with ⟨st', r⟩
    cases r with
    | error e => simp [applyChanges, hx]
    | ok rows =>
      cases u with
      | none => simp [applyChanges, hx]
      | some us =>
        rcases hrs : runSelects exec (buildSelectQueriesFromUpdates us) st' with ⟨st'', out⟩
        simp [applyChanges, hx, hrs]
  · intro hu
    rcases hx : exec (joinStmts (applyChangesStatements ⟨i, u, d⟩)) st with ⟨st', r⟩
    cases r with
    | error e => simp [applyChanges, hx]
    | ok rows =>
      subst hu
      simp [applyChanges, hx]

/-- C3 witness: with no updates, the joined transaction body is the
one and only execution submitted to the driver. -/
theorem c3_witness :
    c3ExampleChanges.updates = none ∧
    (applyChanges acceptAllDriver c3ExampleChanges 0).2.1 =
      [joinStmts (applyChangesStatements c3ExampleChanges)] :=
  ⟨rfl, (c3_applyChanges_statement_sequence Nat acceptAllDriver 0
    c3ExampleChanges).2.2.2.2.2 rfl⟩

/-- C4: if the driver raises on the transaction batch, the error is
rethrown, no result rows are returned, the batch was the only issued
query, and — because the batch opens with the `SET XACT_ABORT ON`
atomicity flag and a transaction, under which the engine rolls a
mid-batch failure back without a state change (`hAtomic`) — the
database state is exactly the pre-change state, so any subsequent read
sees the pre-change values. -/
theorem c4_applyChanges_failure_atomic :
    ∀ (σ : Type) (exec : Driver σ),
      (∀ (stmts : List String) (s s' : σ) (e : String),
        stmts.head? = some "SET XACT_ABORT ON" →
        exec (joinStmts stmts) s = (s', Except.error e) → s' = s) →
      ∀ (changes : ChangeSet) (st : σ) (e : String),
        (exec (joinStmts (applyChangesStatements changes)) st).2 = Except.error e →
        applyChanges exec changes st =
          (st, [joinStmts (applyChangesStatements changes)], Except.error e) := by
  intro σ exec hAtomic changes st e hFail
  rcases hx : exec (joinStmts (applyChangesStatements changes)) st with ⟨st', r⟩
  have hr : r = Except.error e := by
    rw [hx] at hFail
    exact hFail
  subst hr
  have hhead : (applyChangesStatements changes).head? = some "SET XACT_ABORT ON" := by
    obtain ⟨i, u, d⟩ := changes
    simp [applyChangesStatements]
  have hst : st' = st := hAtomic (applyChangesStatements changes) st st' e hhead hx
  subst hst
  simp [applyChanges, hx]

/-- C4 witness: a failing UPDATE batch returns the error, issues only
the batch, and leaves the state at its pre-change value. -/
theorem c4_witness :
    (alwaysFailDriver (joinStmts (applyChangesStatements c4ExampleChanges)) 0).2 =
      Except.error "constraint violation" ∧
    applyChanges alwaysFailDriver c4ExampleChanges 0 =
      (0, [joinStmts (applyChangesStatements c4ExampleChanges)],
        Except.error "constraint violation") :=
  ⟨rfl,
    c4_applyChanges_failure_atomic Nat alwaysFailDriver
      (fun _ _ _ _ _ hx => (congrArg Prod.fst hx).symm)
      c4ExampleChanges 0 "constraint violation" rfl⟩

/-- Membership is preserved by first-occurrence key extraction. -/
theorem mem_firstOccurrenceKeys (k : String) (l : List String) :
    k ∈ firstOccurrenceKeys l ↔ k ∈ l := by
  induction l with
  | nil => simp [firstOccurrenceKeys]
  | cons a rest ih =>
    simp only [firstOccurrenceKeys, List.mem_cons, List.mem_filter]
    constructor
    · rintro (h | ⟨h, -⟩)
      · exact Or.inl h
      · exact Or.inr (ih.mp h)
    · rintro (h | h)
      · exact Or.inl h
      · by_cases hk : k = a
        · exact Or.inl hk
        · exact Or.inr ⟨ih.mpr h, by simp [hk]⟩

/-- `find?` returns the head of the filtered list. -/
theorem find?_eq_head?_filter {α : Type} (p : α → Bool) (l : List α) :
    l.find? p = (l.filter p).head? := by
  induction l with
  | nil => rfl
  | cons a l ih =>
    cases hpa : p a
    · rw [List.find?_cons_of_neg _ (by simp [hpa]),
        List.filter_cons_of_neg (by simp [hpa])]
      exact ih
    · rw [List.find?_cons_of_pos _ hpa, List.filter_cons_of_pos hpa,
        List.head?_cons]

/-- `_.sortBy` returns a permutation of its input. -/
theorem sortByKey_perm {α : Type} (key : α → Nat) (l : List α) :
    (sortByKey key l).Perm l :=
  List.perm_insertionSort _ l

/-- `_.sortBy` output is sorted by the key. -/
theorem sortByKey_pairwise {α : Type} (key : α → Nat) (l : List α) :
    (sortByKey key l).Pairwise (fun a b => key a ≤ key b) :=
  List.sorted_insertionSort _ l

/-- C8: `listTableIndexes` returns one record per distinct index name
(the record names are a permutation of the first-occurrence-ordered
distinct names), ordered by the internal index identifier `id`; each
record's `unique`/`primary`/`id` come from the first catalog row of its
group, and its column list is exactly its group's rows arranged in
ascending `column_id` order with per-column `ASC`/`DESC` from
`is_descending`. -/
theorem c8_listTableIndexes_grouping_and_order :
    ∀ (table schema : String) (rows : List IndexRow),
      ((listTableIndexes table schema rows).map (fun t => t.name)).Perm (groupKeys rows) ∧
      (listTableIndexes table schema rows).Pairwise (fun a b => a.id ≤ b.id) ∧
      (∀ rec ∈ listTableIndexes table schema rows,
        ∃ r0, rows.find? (fun r => r.index_name = rec.name) = some r0 ∧
          rec.unique = r0.is_unique ∧ rec.primary = r0.is_primary ∧
          rec.id = r0.index_id) ∧
      (∀ rec ∈ listTableIndexes table schema rows,
        ∃ sorted : List IndexRow, sorted.Perm (groupRows rows rec.name) ∧
          sorted.Pairwise (fun a b => a.column_id ≤ b.column_id) ∧
          rec.columns = sorted.map (fun c =>
            ({ name := c.column_name,
               order := if c.is_descending then "DESC" else "ASC" } : IndexColumn))) := by
  intro table schema rows
  have hperm : (listTableIndexes table schema rows).Perm
      ((groupKeys rows).map (indexRecordOf table schema rows)) :=
    sortByKey_perm _ _
  have hmem : ∀ rec ∈ listTableIndexes table schema rows,
      ∃ k ∈ groupKeys rows, rec = indexRecordOf table schema rows k := by
    intro rec hrec
    rcases List.mem_map.mp (hperm.mem_iff.mp hrec) with ⟨k, hk, hrk⟩
    exact ⟨k, hk, hrk.symm⟩
  refine ⟨?_, ?_, ?_, ?_⟩
  · have h1 : ((groupKeys rows).map (indexRecordOf table schema rows)).map
        (fun t => t.name) = groupKeys rows := by
      rw [List.map_map]
      have h2 : ∀ k ∈ groupKeys rows,
          ((fun t => t.name) ∘ indexRecordOf table schema rows) k = id k :=
        fun k _ => rfl
      rw [List.map_congr_left h2, List.map_id]
    exact h1 ▸ hperm.map (fun t => t.name)
  · exact sortByKey_pairwise _ _
  · intro rec hrec
    rcases hmem rec hrec with ⟨k, hk, rfl⟩
    have hname : (indexRecordOf table schema rows k).name = k := rfl
    rcases List.mem_map.mp ((mem_firstOccurrenceKeys k _).mp hk) with ⟨r, hr, hrk⟩
    have hfil : r ∈ groupRows rows k := by
      simp [groupRows, List.mem_filter, hr, hrk]
    obtain ⟨r0, l0, hblob⟩ : ∃ r0 l0, groupRows rows k = r0 :: l0 := by
      cases hb : groupRows rows k with
      | nil => rw [hb] at hfil; cases hfil
      | cons r0 l0 => exact ⟨r0, l0, rfl⟩
    refine ⟨r0, ?_, ?_, ?_, ?_⟩
    · simp only [hname]
      have h2 : (groupRows rows k).head? = some r0 := by rw [hblob]; rfl
      exact (find?_eq_head?_filter _ rows).trans h2
    · simp [indexRecordOf, hblob]
    · simp [indexRecordOf, hblob]
    · simp [indexRecordOf, hblob]
  · intro rec hrec
    rcases hmem rec hrec with ⟨k, hk, rfl⟩
    have hname : (indexRecordOf table schema rows k).name = k := rfl
    refine ⟨sortByKey (fun r => r.column_id) (groupRows rows k), ?_, ?_, ?_⟩
    · simp only [hname]
      exact sortByKey_perm _ _
    · exact sortByKey_pairwise _ _
    · rfl

/-- C8 witness: the two-column composite unique index groups into one
record whose flags come from its first catalog row. -/
theorem c8_witness :
    c8ExampleRecord ∈ listTableIndexes "t" "dbo" c8ExampleRows ∧
    ∃ r0, c8ExampleRows.find? (fun r => r.index_name = c8ExampleRecord.name) = some r0 ∧
      c8ExampleRecord.unique = r0.is_unique ∧ c8ExampleRecord.primary = r0.is_primary ∧
      c8ExampleRecord.id = r0.index_id :=
  ⟨by decide,
    (c8_listTableIndexes_grouping_and_order "t" "dbo" c8ExampleRows).2.2.1
      c8ExampleRecord (by decide)⟩

end SQLServer
